import Mathlib

/- Verification development for the riff-cli Dockerfile-generation core:
a shallow embedding of cmd/init.go (option validation) and
pkg/generate/generate_docker.go (Dockerfile generation), together with
models of the Go standard library helpers those files call
(path/filepath with Unix separator rules, strings.HasPrefix,
strings.ToLower, and a minimal model of text/template restricted to the
field-substitution actions the four fixed templates use). -/

set_option autoImplicit false
set_option maxRecDepth 8192

namespace RiffCLI

/- ===== Model of Go path/filepath (Unix rules) ===== -/

/-- Split a character list at every slash, keeping empty components;
this is the component view Go path/filepath works with on Unix. -/
def splitSlash : List Char → List (List Char)
  | [] => [[]]
  | c :: rest =>
    if c = '/' then [] :: splitSlash rest
    else
      match splitSlash rest with
      | [] => [[c]]
      | h :: t => (c :: h) :: t

/-- The slash-separated components of a path string. -/
def pathComponents (p : String) : List String :=
  (splitSlash p.data).map (fun cs => String.mk cs)

/-- Model of Go filepath.IsAbs on Unix: the path starts with a slash. -/
def goIsAbs (p : String) : Bool :=
  match p.data with
  | [] => false
  | c :: _ => c = '/'

/-- One step of filepath.Clean's element processing: push a normal
component, drop empty and dot components, and resolve a dotdot component
against the stack (dropping it at the root when the path is rooted).
The accumulator holds the output components in reverse order. -/
def cleanStackStep (rooted : Bool) (acc : List String) (c : String) : List String :=
  if c = "" ∨ c = "." then acc
  else if c = ".." then
    match acc with
    | [] => if rooted then [] else [".."]
    | a :: rest => if a = ".." then ".." :: a :: rest else rest
  else c :: acc

/-- Iterate cleanStackStep over all components. -/
def cleanStack (rooted : Bool) : List String → List String → List String
  | acc, [] => acc
  | acc, c :: cs => cleanStack rooted (cleanStackStep rooted acc c) cs

/-- Interleave components with slashes. -/
def joinSlash : List String → String
  | [] => ""
  | [c] => c
  | c :: cs => c ++ "/" ++ joinSlash cs

/-- Reassemble cleaned components into a path, restoring the leading
slash for rooted paths and producing a dot for an empty relative result. -/
def cleanAssemble (rooted : Bool) (comps : List String) : String :=
  if rooted then "/" ++ joinSlash comps
  else if comps = [] then "." else joinSlash comps

/-- Model of Go filepath.Clean on Unix: shortest lexically equivalent
path (empty input becomes a dot). -/
def clean (p : String) : String :=
  if p = "" then "."
  else cleanAssemble (goIsAbs p) ((cleanStack (goIsAbs p) [] (pathComponents p)).reverse)

/-- Model of the two-argument Go filepath.Join: join the non-empty
elements with a slash and Clean the result; all-empty input gives the
empty string. -/
def goJoin (a b : String) : String :=
  if a = "" then (if b = "" then "" else clean b)
  else if b = "" then clean a
  else clean (a ++ "/" ++ b)

/-- Model of Go filepath.Dir on Unix: Clean of everything up to and
including the final slash; a path without a slash has directory dot. -/
def goDir (p : String) : String :=
  if (pathComponents p).length ≤ 1 then "."
  else cleanAssemble (goIsAbs p) ((cleanStack (goIsAbs p) [] (pathComponents p).dropLast).reverse)

/-- Model of Go filepath.Base on Unix: last element after stripping
trailing slashes; empty input gives a dot, an all-slash path gives a
slash. -/
def goBase (p : String) : String :=
  if p = "" then "."
  else
    match ((pathComponents p).reverse.dropWhile (fun c => c = "")).head? with
    | none => "/"
    | some b => b

/-- Model of Go filepath.Abs given a working directory: Clean for
already-absolute paths, otherwise Join with the working directory.
The Getwd error branch of the source is not modelled; the working
directory is supplied by the filesystem oracle. -/
def goAbs (cwd p : String) : String :=
  if goIsAbs p = true then clean p else goJoin cwd p

/-- Model of Go strings.HasPrefix: the second argument is a leading
substring of the first. -/
def hasPrefixStr (s pre : String) : Bool :=
  pre.data.isPrefixOf s.data

/-- Model of Go strings.ToLower restricted to ASCII, which is all the
validator's protocol whitelist needs. -/
def goToLower (s : String) : String :=
  String.mk (s.data.map Char.toLower)


/- ===== Data model for the validator (src/cmd/init.go) ===== -/

/-- Modelled from the spec: the osutils package (FileExists, IsDirectory,
GetCWD) is repository code that is not under src/; the filesystem and
working directory those helpers consult are modelled as an abstract
oracle of existence and directory-ness per path string. -/
structure FileSystem where
  fileExists : String → Bool
  isDirectory : String → Bool
  cwd : String

namespace Cmd

/-- Modelled from the spec: the cmd-package InitOptions record (fields
functionPath, artifact, protocol, riffVersion) is declared outside src/;
src/cmd/init.go reads and mutates exactly the first three fields. -/
structure InitOptions where
  functionPath : String
  artifact : String
  protocol : String
  riffVersion : String
deriving DecidableEq

end Cmd

/-- Error taxonomy of validateAndCleanInitOptions, one constructor per
spec error name. The source returns errors.New with a message at each
site; InvalidArtifact covers both the absolute-artifact message
("must be relative to function path") and the artifact-is-a-directory
message ("must be a regular file"), as in the spec's taxonomy. -/
inductive InitError where
  | PathNotFound
  | InvalidArtifact
  | ArtifactOutsideTree
  | ArtifactNotFound
  | ArtifactConflict
  | UnsupportedProtocol
deriving DecidableEq

/-- Modelled from the spec: supportedProtocols is a fixed whitelist
declared in the cmd package outside src/; the spec fixes only that it is
a fixed set of protocol names containing "http". -/
def supportedProtocols : List String := ["http", "grpc", "stdio"]

/-- The in-place cleaning of the first two statements of
validateAndCleanInitOptions: functionPath is always Cleaned, artifact is
Cleaned only when non-empty. -/
def cleanOptions (o : Cmd.InitOptions) : Cmd.InitOptions :=
  { o with
    functionPath := clean o.functionPath,
    artifact := if o.artifact = "" then o.artifact else clean o.artifact }

/-- The local absFilePath of the source: filepath.Abs of the cleaned
functionPath. -/
def absFilePathOf (fs : FileSystem) (o : Cmd.InitOptions) : String :=
  goAbs fs.cwd o.functionPath

/-- The local absArtifactPath of the source: the artifact joined onto
absFilePath when that is a directory, else onto its parent directory. -/
def artifactAbsPath (fs : FileSystem) (o : Cmd.InitOptions) : String :=
  if fs.isDirectory (absFilePathOf fs o) = true then goJoin (absFilePathOf fs o) o.artifact
  else goJoin (goDir (absFilePathOf fs o)) o.artifact

/-- The local absFilePathDir of the source: the containment root,
absFilePath itself when a directory, else its parent directory. -/
def containmentRoot (fs : FileSystem) (o : Cmd.InitOptions) : String :=
  if fs.isDirectory (absFilePathOf fs o) = true then absFilePathOf fs o
  else goDir (absFilePathOf fs o)

/-- The artifact block of validateAndCleanInitOptions, applied to the
already-cleaned record: absolute-path check, directory check, prefix
containment check, existence check, and file-mode conflict check, in
source order. -/
def checkArtifact (fs : FileSystem) (o : Cmd.InitOptions) : Except InitError Unit :=
  if o.artifact = "" then .ok ()
  else if goIsAbs o.artifact = true then .error .InvalidArtifact
  else if fs.isDirectory (artifactAbsPath fs o) = true then .error .InvalidArtifact
  else if hasPrefixStr (goDir (artifactAbsPath fs o)) (containmentRoot fs o) = false then
    .error .ArtifactOutsideTree
  else if fs.fileExists (artifactAbsPath fs o) = false then .error .ArtifactNotFound
  else if fs.isDirectory (absFilePathOf fs o) = false ∧ absFilePathOf fs o ≠ artifactAbsPath fs o then
    .error .ArtifactConflict
  else .ok ()

/-- The protocol block of validateAndCleanInitOptions: when non-empty,
the protocol is lower-cased in place and must occur in the supported
whitelist (the source's loop over supportedProtocols is membership with
string equality). -/
def checkProtocol (o : Cmd.InitOptions) : Except InitError Cmd.InitOptions :=
  if o.protocol = "" then .ok o
  else if goToLower o.protocol ∈ supportedProtocols then
    .ok { o with protocol := goToLower o.protocol }
  else .error .UnsupportedProtocol

/-- Shallow embedding of validateAndCleanInitOptions from
src/cmd/init.go: clean the paths, require the (cleaned, hence non-empty)
functionPath to exist, run the artifact checks, then the protocol check.
Success carries the record as mutated in place by the source. -/
def validateAndCleanInitOptions (fs : FileSystem) (o0 : Cmd.InitOptions) :
    Except InitError Cmd.InitOptions :=
  let o := cleanOptions o0
  if o.functionPath ≠ "" ∧ fs.fileExists o.functionPath = false then .error .PathNotFound
  else
    match checkArtifact fs o with
    | .error e => .error e
    | .ok _ => checkProtocol o

/- ===== Data model for the generator (src/pkg/generate/generate_docker.go) ===== -/

namespace Options

/-- Modelled from the spec: the exported options.InitOptions record of
the options package (outside src/); the generator reads only Artifact
and RiffVersion from it. -/
structure InitOptions where
  FunctionPath : String
  Artifact : String
  Protocol : String
  RiffVersion : String
deriving DecidableEq

/-- Modelled from the spec: options.HandlerAwareInitOptions embeds
InitOptions and adds the Handler entry-point symbol. -/
structure HandlerAwareInitOptions where
  InitOptions : InitOptions
  Handler : String
deriving DecidableEq

end Options

/-- The render-only token record of generate_docker.go. -/
structure DockerFileTokens where
  Artifact : String
  ArtifactBase : String
  RiffVersion : String
  Handler : String
deriving DecidableEq

/-- The python template string of generate_docker.go, verbatim (Go raw
string starting and ending with a newline; template braces written with
hex escapes). -/
def pythonFunctionDockerfileTemplate : String :=
  "\nFROM projectriff/python2-function-invoker:\x7b\x7b.RiffVersion\x7d\x7d\nARG FUNCTION_MODULE=\x7b\x7b.ArtifactBase\x7d\x7d\nARG FUNCTION_HANDLER=\x7b\x7b.Handler\x7d\x7d\nADD ./\x7b\x7b.ArtifactBase\x7d\x7d /\nADD ./requirements.txt /\nRUN  pip install --upgrade pip && pip install -r /requirements.txt\nENV FUNCTION_URI file:///$\x7bFUNCTION_MODULE\x7d?handler=$\x7bFUNCTION_HANDLER\x7d\n"

/-- The node template string of generate_docker.go, verbatim. -/
def nodeFunctionDockerfileTemplate : String :=
  "\nFROM projectriff/node-function-invoker:\x7b\x7b.RiffVersion\x7d\x7d\nENV FUNCTION_URI /functions/\x7b\x7b.Artifact\x7d\x7d\nADD \x7b\x7b.ArtifactBase\x7d\x7d $\x7bFUNCTION_URI\x7d\n"

/-- The java template string of generate_docker.go, verbatim. -/
def javaFunctionDockerfileTemplate : String :=
  "\nFROM projectriff/java-function-invoker:\x7b\x7b.RiffVersion\x7d\x7d\nARG FUNCTION_JAR=/functions/\x7b\x7b.ArtifactBase\x7d\x7d\nARG FUNCTION_CLASS=\x7b\x7b.Handler\x7d\x7d\nADD target/\x7b\x7b.ArtifactBase\x7d\x7d $FUNCTION_JAR\nENV FUNCTION_URI file://$\x7bFUNCTION_JAR\x7d?handler=$\x7bFUNCTION_CLASS\x7d\n"

/-- The shell template string of generate_docker.go, verbatim. -/
def shellFunctionDockerfileTemplate : String :=
  "\nFROM projectriff/shell-function-invoker:\x7b\x7b.RiffVersion\x7d\x7d\nARG FUNCTION_URI=\"/\x7b\x7b.ArtifactBase\x7d\x7d\"\nADD \x7b\x7b.Artifact\x7d\x7d /\nENV FUNCTION_URI $FUNCTION_URI\n"

/-- The opening-brace character of a template action. -/
def lbrace : Char := Char.ofNat 123

/-- The closing-brace character of a template action. -/
def rbrace : Char := Char.ofNat 125

/-- Parsed template node: a literal character or a field action. -/
inductive TmplNode where
  | lit : Char → TmplNode
  | fieldNode : String → TmplNode
deriving DecidableEq

/-- Scan the field name of an action after the opening dot, up to the
closing double brace; fails on a malformed action. -/
def scanName : List Char → List Char → Option (String × List Char)
  | [], _ => none
  | c :: rest, acc =>
    if c = rbrace then
      match rest with
      | c2 :: rest2 => if c2 = rbrace then some (String.mk acc.reverse, rest2) else none
      | [] => none
    else if c = lbrace then none
    else scanName rest (c :: acc)

/-- Scan a template action body after the opening double brace: a dot,
a field name, then the closing double brace. -/
def scanAction : List Char → Option (String × List Char)
  | [] => none
  | c :: rest => if c = '.' then scanName rest [] else none

/-- Fuel-indexed body of the template parser: literal text is kept
per character, a double opening brace starts a field action; an
unterminated or malformed action is a parse error. The fuel is the
input length, which suffices because every step consumes at least one
character. -/
def parseTmplAux : Nat → List Char → Except String (List TmplNode)
  | _, [] => .ok []
  | 0, _ :: _ => .error "template parse error"
  | fuel + 1, c :: cs =>
    if c = lbrace then
      match cs with
      | c2 :: cs2 =>
        if c2 = lbrace then
          match scanAction cs2 with
          | none => .error "template parse error"
          | some (name, rest) =>
            match parseTmplAux fuel rest with
            | .error e => .error e
            | .ok nodes => .ok (.fieldNode name :: nodes)
        else
          match parseTmplAux fuel cs with
          | .error e => .error e
          | .ok nodes => .ok (.lit c :: nodes)
      | [] => .ok [.lit c]
    else
      match parseTmplAux fuel cs with
      | .error e => .error e
      | .ok nodes => .ok (.lit c :: nodes)

/-- Model of template.New(name).Parse(tmpl) restricted to the grammar
the four fixed templates use: plain text plus field actions. -/
def parseTemplate (tmpl : String) : Except String (List TmplNode) :=
  parseTmplAux tmpl.data.length tmpl.data

/-- Field lookup on DockerFileTokens during execution; an unknown field
name is an execution error, as in text/template. -/
def lookupField (tk : DockerFileTokens) (name : String) : Except String String :=
  if name = "Artifact" then .ok tk.Artifact
  else if name = "ArtifactBase" then .ok tk.ArtifactBase
  else if name = "RiffVersion" then .ok tk.RiffVersion
  else if name = "Handler" then .ok tk.Handler
  else .error ("cannot evaluate field " ++ name)

/-- Model of Template.Execute over the parsed nodes: literal characters
are copied and field actions are substituted. -/
def executeTemplate (tk : DockerFileTokens) : List TmplNode → Except String String
  | [] => .ok ""
  | .lit c :: rest =>
    match executeTemplate tk rest with
    | .error e => .error e
    | .ok s => .ok (String.mk (c :: s.data))
  | .fieldNode n :: rest =>
    match lookupField tk n with
    | .error e => .error e
    | .ok v =>
      match executeTemplate tk rest with
      | .error e => .error e
      | .ok s => .ok (v ++ s)

/-- Shallow embedding of generateFunctionDockerFileContents: parse the
template, execute it against the tokens, and return the text with a nil
error, or an empty string alongside the parse or execute error. The
name argument is the template name the source passes to template.New. -/
def generateFunctionDockerFileContents (tmpl : String) (_name : String)
    (tokens : DockerFileTokens) : String × Option String :=
  match parseTemplate tmpl with
  | .error e => ("", some e)
  | .ok nodes =>
    match executeTemplate tokens nodes with
    | .error e => ("", some e)
    | .ok s => (s, none)

/-- Shallow embedding of generateShellFunctionDockerFile: fresh tokens
from Artifact, its basename and RiffVersion (Handler left at the Go
zero value). -/
def generateShellFunctionDockerFile (opts : Options.InitOptions) : String × Option String :=
  generateFunctionDockerFileContents shellFunctionDockerfileTemplate "docker-shell"
    { Artifact := opts.Artifact, ArtifactBase := goBase opts.Artifact,
      RiffVersion := opts.RiffVersion, Handler := "" }

/-- Shallow embedding of generateNodeFunctionDockerFile. -/
def generateNodeFunctionDockerFile (opts : Options.InitOptions) : String × Option String :=
  generateFunctionDockerFileContents nodeFunctionDockerfileTemplate "docker-node"
    { Artifact := opts.Artifact, ArtifactBase := goBase opts.Artifact,
      RiffVersion := opts.RiffVersion, Handler := "" }

/-- Shallow embedding of generateJavaFunctionDockerFile: tokens also
carry the handler class name. -/
def generateJavaFunctionDockerFile (opts : Options.HandlerAwareInitOptions) :
    String × Option String :=
  generateFunctionDockerFileContents javaFunctionDockerfileTemplate "docker-java"
    { Artifact := opts.InitOptions.Artifact, ArtifactBase := goBase opts.InitOptions.Artifact,
      RiffVersion := opts.InitOptions.RiffVersion, Handler := opts.Handler }

/-- Shallow embedding of generatePythonFunctionDockerFile. -/
def generatePythonFunctionDockerFile (opts : Options.HandlerAwareInitOptions) :
    String × Option String :=
  generateFunctionDockerFileContents pythonFunctionDockerfileTemplate "docker-python"
    { Artifact := opts.InitOptions.Artifact, ArtifactBase := goBase opts.InitOptions.Artifact,
      RiffVersion := opts.InitOptions.RiffVersion, Handler := opts.Handler }

/-- Shallow embedding of generateDockerfile: the closed per-language
dispatch of the source's switch statement, with the unsupported-language
error carrying the source's message. -/
def generateDockerfile (language : String) (opts : Options.HandlerAwareInitOptions) :
    String × Option String :=
  if language = "java" then generateJavaFunctionDockerFile opts
  else if language = "python" then generatePythonFunctionDockerFile opts
  else if language = "shell" then generateShellFunctionDockerFile opts.InitOptions
  else if language = "node" then generateNodeFunctionDockerFile opts.InitOptions
  else if language = "js" then generateNodeFunctionDockerFile opts.InitOptions
  else ("", some ("unsupported language " ++ language))

/-- Occurrence scan: does the pattern occur at some position of the
character list? -/
def containsSubAux (pat : List Char) : List Char → Bool
  | [] => pat.isEmpty
  | c :: rest => pat.isPrefixOf (c :: rest) || containsSubAux pat rest

/-- Substring test used to state the rendered-output properties. -/
def containsSubstring (s sub : String) : Bool :=
  containsSubAux sub.data s.data

/- ===== Concrete fixtures used by claim theorems and witnesses ===== -/

/-- Filesystem for the containment-check scenario: a function directory
/a/b and a sibling directory /a/bFoo whose name extends the root's name
as a string, holding a regular file art.txt. -/
def fsC1 : FileSystem :=
  { fileExists := fun s => s == "/a/b" || s == "/a/bFoo/art.txt",
    isDirectory := fun s => s == "/" || s == "/a" || s == "/a/b" || s == "/a/bFoo",
    cwd := "/" }

/-- Options whose artifact climbs out of /a/b into the sibling /a/bFoo. -/
def optsC1 : Cmd.InitOptions :=
  { functionPath := "/a/b", artifact := "../bFoo/art.txt", protocol := "", riffVersion := "0.0.1" }

/-- An empty filesystem: nothing exists. -/
def fsC3 : FileSystem :=
  { fileExists := fun _ => false, isDirectory := fun _ => false, cwd := "/" }

/-- Options with a non-existent functionPath and an absolute artifact. -/
def optsC3 : Cmd.InitOptions :=
  { functionPath := "/missing", artifact := "/abs.jar", protocol := "", riffVersion := "" }

/-- A filesystem on which every path exists as a regular file. -/
def fsC3w : FileSystem :=
  { fileExists := fun _ => true, isDirectory := fun _ => false, cwd := "/" }

/-- Options with an existing functionPath and an absolute artifact. -/
def optsC3w : Cmd.InitOptions :=
  { functionPath := "/p/q", artifact := "/lib/a.jar", protocol := "", riffVersion := "" }

/-- A filesystem holding just the function directory /fn. -/
def fsC2w : FileSystem :=
  { fileExists := fun s => s == "/fn", isDirectory := fun s => s == "/fn" || s == "/", cwd := "/" }

/-- Options with empty artifact and protocol on an existing path. -/
def optsC2w : Cmd.InitOptions :=
  { functionPath := "/fn", artifact := "", protocol := "", riffVersion := "" }

/-- Filesystem where functionPath /d/f is a regular file and the
artifact resolves to the different regular file /d/g in its parent. -/
def fsC4 : FileSystem :=
  { fileExists := fun s => s == "/d/f" || s == "/d/g" || s == "/d",
    isDirectory := fun s => s == "/d" || s == "/",
    cwd := "/" }

/-- File-mode options whose artifact resolves to a sibling file. -/
def optsC4 : Cmd.InitOptions :=
  { functionPath := "/d/f", artifact := "g", protocol := "", riffVersion := "" }

/-- Options carrying the mixed-case protocol of the spec's example. -/
def optsC5w : Cmd.InitOptions :=
  { functionPath := "sq", artifact := "", protocol := "HTTP", riffVersion := "" }

/-- Generator options used for the unsupported-language witness. -/
def optsC6w : Options.HandlerAwareInitOptions :=
  { InitOptions := { FunctionPath := "", Artifact := "f.rb", Protocol := "",
                     RiffVersion := "0.1" },
    Handler := "h" }

/-- Generator options of the spec's java example. -/
def optsC8 : Options.HandlerAwareInitOptions :=
  { InitOptions := { FunctionPath := "", Artifact := "target/app.jar", Protocol := "",
                     RiffVersion := "0.1" },
    Handler := "com.example.Fn" }

/-- Two generator option records agreeing on Artifact, RiffVersion and
Handler while differing on FunctionPath and Protocol. -/
def optsC9a : Options.HandlerAwareInitOptions :=
  { InitOptions := { FunctionPath := "/x", Artifact := "a.js", Protocol := "http",
                     RiffVersion := "0.1" },
    Handler := "h" }

/-- Counterpart of optsC9a with different unread fields. -/
def optsC9b : Options.HandlerAwareInitOptions :=
  { InitOptions := { FunctionPath := "/y", Artifact := "a.js", Protocol := "grpc",
                     RiffVersion := "0.1" },
    Handler := "h" }

/- ===== Helper lemmas ===== -/

lemma string_append_data (s t : String) : (s ++ t).data = s.data ++ t.data := by
  cases s; cases t; rfl

lemma string_eq_empty_iff (s : String) : s = "" ↔ s.data = [] := by
  cases s with
  | mk d =>
    constructor
    · intro h
      rw [h]
    · intro h
      simp only at h
      subst h
      rfl

lemma string_append_ne_empty_left (s t : String) (h : s ≠ "") : s ++ t ≠ "" := by
  intro hc
  apply h
  rw [string_eq_empty_iff] at hc ⊢
  rw [string_append_data] at hc
  exact List.append_eq_nil.mp hc |>.1

lemma cleanStackStep_mem_ne (rooted : Bool) (acc : List String) (c : String)
    (h : ∀ x ∈ acc, x ≠ "") : ∀ x ∈ cleanStackStep rooted acc c, x ≠ "" := by
  intro x hx hxe
  subst hxe
  rw [cleanStackStep.eq_def] at hx
  by_cases h1 : c = "" ∨ c = "."
  · rw [if_pos h1] at hx
    exact h "" hx rfl
  · rw [if_neg h1] at hx
    by_cases h2 : c = ".."
    · rw [if_pos h2] at hx
      cases acc with
      | nil =>
        cases rooted with
        | true => simp at hx
        | false => simp at hx
      | cons a rest =>
        have hx' : "" ∈ if a = ".." then ".." :: a :: rest else rest := hx
        by_cases h3 : a = ".."
        · rw [if_pos h3] at hx'
          rcases List.mem_cons.mp hx' with h4 | h4
          · exact absurd h4.symm (by decide)
          · exact h "" h4 rfl
        · rw [if_neg h3] at hx'
          exact h "" (List.mem_cons_of_mem a hx') rfl
    · rw [if_neg h2] at hx
      rcases List.mem_cons.mp hx with h4 | h4
      · exact h1 (Or.inl h4.symm)
      · exact h "" h4 rfl

lemma cleanStack_mem_ne (rooted : Bool) :
    ∀ (cs acc : List String), (∀ x ∈ acc, x ≠ "") →
      ∀ x ∈ cleanStack rooted acc cs, x ≠ "" := by
  intro cs
  induction cs with
  | nil => intro acc h; exact h
  | cons c cs ih =>
    intro acc h
    exact ih (cleanStackStep rooted acc c) (cleanStackStep_mem_ne rooted acc c h)

lemma joinSlash_ne_empty (c : String) (cs : List String) (hc : c ≠ "") :
    joinSlash (c :: cs) ≠ "" := by
  cases cs with
  | nil => exact hc
  | cons c2 cs2 =>
    show c ++ "/" ++ joinSlash (c2 :: cs2) ≠ ""
    exact string_append_ne_empty_left _ _ (string_append_ne_empty_left _ _ hc)

lemma cleanAssemble_ne_empty (rooted : Bool) (comps : List String)
    (h : ∀ x ∈ comps, x ≠ "") : cleanAssemble rooted comps ≠ "" := by
  unfold cleanAssemble
  split
  · exact string_append_ne_empty_left _ _ (by decide)
  · split
    · decide
    · rename_i hne
      match comps, hne with
      | c :: cs, _ => exact joinSlash_ne_empty c cs (h c (List.mem_cons_self c cs))

lemma clean_ne_empty (p : String) : clean p ≠ "" := by
  unfold clean
  split
  · decide
  · apply cleanAssemble_ne_empty
    intro x hx
    exact cleanStack_mem_ne _ _ [] (by intro y hy; cases hy) x (List.mem_reverse.mp hx)

lemma checkProtocol_ne_conflict (o : Cmd.InitOptions) :
    checkProtocol o ≠ Except.error InitError.ArtifactConflict := by
  unfold checkProtocol
  split
  · intro h; cases h
  · split
    · intro h; cases h
    · intro h; cases h

lemma validate_eq (fs : FileSystem) (o0 : Cmd.InitOptions) :
    validateAndCleanInitOptions fs o0 =
      if (cleanOptions o0).functionPath ≠ "" ∧
          fs.fileExists (cleanOptions o0).functionPath = false then
        Except.error InitError.PathNotFound
      else
        match checkArtifact fs (cleanOptions o0) with
        | .error e => .error e
        | .ok _ => checkProtocol (cleanOptions o0) := rfl

lemma validate_cond_false (fs : FileSystem) (o : Cmd.InitOptions)
    (hfp : fs.fileExists (clean o.functionPath) = true) :
    ¬((cleanOptions o).functionPath ≠ "" ∧
      fs.fileExists (cleanOptions o).functionPath = false) := by
  intro hc
  rw [show (cleanOptions o).functionPath = clean o.functionPath from rfl, hfp] at hc
  exact Bool.noConfusion hc.2

/- ===== Claim theorems ===== -/

/-- Claim C1: the artifact containment check in
validateAndCleanInitOptions is a string-prefix test on the resolved
artifact's containing directory, not a canonical path-boundary test:
for the root /a/b there is a non-empty relative artifact resolving into
the sibling directory /a/bFoo, whose name merely extends the root's
name as a string, and validation does not fail with ArtifactOutsideTree
(all other artifact checks being satisfied — it succeeds outright). -/
theorem claim_C1_containment_prefix_loose :
    optsC1.artifact ≠ "" ∧
    goIsAbs (cleanOptions optsC1).artifact = false ∧
    containmentRoot fsC1 (cleanOptions optsC1) = "/a/b" ∧
    goDir (artifactAbsPath fsC1 (cleanOptions optsC1)) = "/a/bFoo" ∧
    hasPrefixStr "/a/bFoo" ("/a/b" ++ "/") = false ∧
    "/a/bFoo" ≠ "/a/b" ∧
    validateAndCleanInitOptions fsC1 optsC1 = .ok optsC1 ∧
    validateAndCleanInitOptions fsC1 optsC1 ≠ .error .ArtifactOutsideTree := by
  refine ⟨by decide, by decide, by decide, by decide, by decide, by decide, rfl, ?_⟩
  intro h
  have h' : Except.ok (ε := InitError) optsC1 = Except.error InitError.ArtifactOutsideTree := h
  exact Except.noConfusion h'

/-- Claim C2: with empty artifact and protocol, validation succeeds
exactly when the cleaned functionPath exists, and otherwise fails with
PathNotFound; no other outcome is possible in this configuration. -/
theorem claim_C2_empty_artifact_protocol (fs : FileSystem) (o : Cmd.InitOptions)
    (ha : o.artifact = "") (hp : o.protocol = "") :
    (fs.fileExists (clean o.functionPath) = true →
      validateAndCleanInitOptions fs o = .ok (cleanOptions o)) ∧
    (fs.fileExists (clean o.functionPath) = false →
      validateAndCleanInitOptions fs o = .error .PathNotFound) := by
  have hart : (cleanOptions o).artifact = "" := by
    simp [cleanOptions, ha]
  have hca : checkArtifact fs (cleanOptions o) = .ok () := by
    unfold checkArtifact
    rw [if_pos hart]
  have hcp : checkProtocol (cleanOptions o) = .ok (cleanOptions o) := by
    unfold checkProtocol
    rw [if_pos (show (cleanOptions o).protocol = "" from hp)]
  constructor
  · intro hex
    rw [validate_eq, if_neg (validate_cond_false fs o hex), hca]
    exact hcp
  · intro hex
    rw [validate_eq, if_pos ⟨show clean o.functionPath ≠ "" from clean_ne_empty _, hex⟩]

/-- Claim C3, counterexample: an options record whose cleaned artifact
is absolute but whose functionPath does not exist is rejected with
PathNotFound, not InvalidArtifact, refuting the claim's unconditional
universal statement. -/
theorem claim_C3_counterexample :
    goIsAbs (cleanOptions optsC3).artifact = true ∧
    validateAndCleanInitOptions fsC3 optsC3 = .error .PathNotFound ∧
    validateAndCleanInitOptions fsC3 optsC3 ≠ .error .InvalidArtifact := by
  refine ⟨by decide, rfl, ?_⟩
  intro h
  exact InitError.noConfusion (Except.error.inj h)

/-- Claim C3, amended: for every options record whose artifact (after
cleaning) is an absolute path, provided the cleaned functionPath exists
on the filesystem, validateAndCleanInitOptions fails with
InvalidArtifact regardless of the filesystem's contents at the artifact
path — the absolute-path check precedes every filesystem lookup of the
artifact. -/
theorem claim_C3_absolute_artifact_invalid (fs : FileSystem) (o : Cmd.InitOptions)
    (habs : goIsAbs (cleanOptions o).artifact = true)
    (hfp : fs.fileExists (clean o.functionPath) = true) :
    validateAndCleanInitOptions fs o = .error .InvalidArtifact := by
  have hartne : (cleanOptions o).artifact ≠ "" := by
    intro hc
    rw [hc] at habs
    exact absurd habs (by decide)
  have hca : checkArtifact fs (cleanOptions o) = .error .InvalidArtifact := by
    unfold checkArtifact
    rw [if_neg hartne, if_pos habs]
  rw [validate_eq, if_neg (validate_cond_false fs o hfp), hca]

/-- Claim C3 witness: a concrete absolute artifact on a filesystem where
every path exists is rejected with InvalidArtifact. -/
theorem claim_C3_witness :
    validateAndCleanInitOptions fsC3w optsC3w = .error .InvalidArtifact :=
  claim_C3_absolute_artifact_invalid fsC3w optsC3w (by decide) (by decide)

/-- Claim C2 witness: empty artifact and protocol on an existing
functionPath validate successfully. -/
theorem claim_C2_witness :
    validateAndCleanInitOptions fsC2w optsC2w = .ok (cleanOptions optsC2w) :=
  (claim_C2_empty_artifact_protocol fsC2w optsC2w rfl rfl).1 (by decide)

/-- Claim C4: when functionPath resolves to a regular file and the
non-empty relative artifact resolves (against functionPath's parent
directory) to an existing regular file inside the containment root,
validation fails with ArtifactConflict exactly when the two resolved
absolute paths differ; when they are equal the conflict check passes. -/
theorem claim_C4_file_mode_conflict (fs : FileSystem) (o : Cmd.InitOptions)
    (hfp : fs.fileExists (clean o.functionPath) = true)
    (ha : o.artifact ≠ "")
    (habs : goIsAbs (cleanOptions o).artifact = false)
    (hnd : fs.isDirectory (absFilePathOf fs (cleanOptions o)) = false)
    (hand : fs.isDirectory (artifactAbsPath fs (cleanOptions o)) = false)
    (hpre : hasPrefixStr (goDir (artifactAbsPath fs (cleanOptions o)))
        (containmentRoot fs (cleanOptions o)) = true)
    (hex : fs.fileExists (artifactAbsPath fs (cleanOptions o)) = true) :
    (absFilePathOf fs (cleanOptions o) ≠ artifactAbsPath fs (cleanOptions o) →
      validateAndCleanInitOptions fs o = .error .ArtifactConflict) ∧
    (absFilePathOf fs (cleanOptions o) = artifactAbsPath fs (cleanOptions o) →
      validateAndCleanInitOptions fs o ≠ .error .ArtifactConflict) := by
  have hartne : (cleanOptions o).artifact ≠ "" := by
    have he : (cleanOptions o).artifact = clean o.artifact := by
      simp [cleanOptions, ha]
    rw [he]
    exact clean_ne_empty _
  constructor
  · intro hne
    have hca : checkArtifact fs (cleanOptions o) = .error .ArtifactConflict := by
      unfold checkArtifact
      rw [if_neg hartne, if_neg (by rw [habs]; decide), if_neg (by rw [hand]; decide),
        if_neg (by rw [hpre]; decide), if_neg (by rw [hex]; decide), if_pos ⟨hnd, hne⟩]
    rw [validate_eq, if_neg (validate_cond_false fs o hfp), hca]
  · intro heq
    have hca : checkArtifact fs (cleanOptions o) = .ok () := by
      unfold checkArtifact
      rw [if_neg hartne, if_neg (by rw [habs]; decide), if_neg (by rw [hand]; decide),
        if_neg (by rw [hpre]; decide), if_neg (by rw [hex]; decide),
        if_neg (fun hc => hc.2 heq)]
    rw [validate_eq, if_neg (validate_cond_false fs o hfp), hca]
    exact checkProtocol_ne_conflict _

/-- Claim C4 witness: functionPath /d/f is a regular file and artifact g
resolves to the different existing file /d/g, so validation fails with
ArtifactConflict. -/
theorem claim_C4_witness :
    validateAndCleanInitOptions fsC4 optsC4 = .error .ArtifactConflict :=
  (claim_C4_file_mode_conflict fsC4 optsC4 (by decide) (by decide) (by decide) (by decide)
    (by decide) (by decide) (by decide)).1 (by decide)

/-- Claim C5: for every record with non-empty protocol, the protocol
check of validateAndCleanInitOptions lower-cases the protocol in place
and succeeds exactly when the lower-cased value is in the supported
whitelist, failing with UnsupportedProtocol otherwise. -/
theorem claim_C5_protocol_lowercased_whitelist (o : Cmd.InitOptions)
    (hp : o.protocol ≠ "") :
    (goToLower o.protocol ∈ supportedProtocols →
      checkProtocol o = .ok { o with protocol := goToLower o.protocol }) ∧
    (goToLower o.protocol ∉ supportedProtocols →
      checkProtocol o = .error .UnsupportedProtocol) := by
  constructor
  · intro hm
    unfold checkProtocol
    rw [if_neg hp, if_pos hm]
  · intro hm
    unfold checkProtocol
    rw [if_neg hp, if_neg hm]

/-- Claim C5 witness: protocol HTTP is supported and normalized in
place to http. -/
theorem claim_C5_witness :
    checkProtocol optsC5w = .ok { optsC5w with protocol := goToLower optsC5w.protocol } ∧
    goToLower optsC5w.protocol = "http" :=
  ⟨(claim_C5_protocol_lowercased_whitelist optsC5w (by decide)).1 (by decide), by decide⟩

/-- Claim C6: for every language outside the closed set java, python,
shell, node, js, generateDockerfile returns the unsupported-language
error together with the empty string — no partial Dockerfile text. -/
theorem claim_C6_unsupported_language (lang : String)
    (opts : Options.HandlerAwareInitOptions)
    (h : lang ∉ (["java", "python", "shell", "node", "js"] : List String)) :
    generateDockerfile lang opts = ("", some ("unsupported language " ++ lang)) := by
  unfold generateDockerfile
  rw [if_neg (fun he => h (by rw [he]; decide)), if_neg (fun he => h (by rw [he]; decide)),
    if_neg (fun he => h (by rw [he]; decide)), if_neg (fun he => h (by rw [he]; decide)),
    if_neg (fun he => h (by rw [he]; decide))]

/-- Claim C6 witness: language ruby yields the unsupported-language
error and empty text. -/
theorem claim_C6_witness :
    generateDockerfile "ruby" optsC6w = ("", some ("unsupported language " ++ "ruby")) :=
  claim_C6_unsupported_language "ruby" optsC6w (by decide)

/-- Claim C7: for every options record, generateDockerfile on the js
and node language keys returns byte-identical text and identical error
results. -/
theorem claim_C7_js_node_alias (opts : Options.HandlerAwareInitOptions) :
    generateDockerfile "js" opts = generateDockerfile "node" opts := rfl

/-- Claim C8: the java generator applied to the spec's example options
produces text containing FUNCTION_CLASS=com.example.Fn and
projectriff/java-function-invoker:0.1, and in general it instantiates
the java template with ArtifactBase equal to the basename of the
Artifact. -/
theorem claim_C8_java_render :
    containsSubstring (generateDockerfile "java" optsC8).1 "FUNCTION_CLASS=com.example.Fn"
      = true ∧
    containsSubstring (generateDockerfile "java" optsC8).1
      "projectriff/java-function-invoker:0.1" = true ∧
    goBase optsC8.InitOptions.Artifact = "app.jar" ∧
    (∀ opts : Options.HandlerAwareInitOptions,
      generateDockerfile "java" opts = generateFunctionDockerFileContents
        javaFunctionDockerfileTemplate "docker-java"
        { Artifact := opts.InitOptions.Artifact,
          ArtifactBase := goBase opts.InitOptions.Artifact,
          RiffVersion := opts.InitOptions.RiffVersion,
          Handler := opts.Handler }) :=
  ⟨by decide, by decide, by decide, fun _ => rfl⟩

/-- Claim C9: the generator never mutates the options record it is
given: it receives the record by value and reads only Artifact,
RiffVersion and Handler, so its result is unchanged by any variation of
the remaining fields — for every language, two records agreeing on
those three fields produce identical results. -/
theorem claim_C9_generator_reads_only_tokens (lang : String)
    (o o' : Options.HandlerAwareInitOptions)
    (h1 : o.InitOptions.Artifact = o'.InitOptions.Artifact)
    (h2 : o.InitOptions.RiffVersion = o'.InitOptions.RiffVersion)
    (h3 : o.Handler = o'.Handler) :
    generateDockerfile lang o = generateDockerfile lang o' := by
  unfold generateDockerfile generateJavaFunctionDockerFile generatePythonFunctionDockerFile
    generateShellFunctionDockerFile generateNodeFunctionDockerFile
  rw [h1, h2, h3]

/-- Claim C9 witness: two records differing only in FunctionPath and
Protocol generate the same java Dockerfile result. -/
theorem claim_C9_witness :
    generateDockerfile "java" optsC9a = generateDockerfile "java" optsC9b :=
  claim_C9_generator_reads_only_tokens "java" optsC9a optsC9b rfl rfl rfl

/-- Claim C10: for every supported language and every options record,
generateDockerfile returns a nil error: the parse and execute error
branches of generateFunctionDockerFileContents are unreachable on the
four fixed template strings, whatever token values are substituted. -/
theorem claim_C10_supported_languages_never_error
    (opts : Options.HandlerAwareInitOptions) (tk : DockerFileTokens) :
    (generateDockerfile "java" opts).2 = none ∧
    (generateDockerfile "python" opts).2 = none ∧
    (generateDockerfile "shell" opts).2 = none ∧
    (generateDockerfile "node" opts).2 = none ∧
    (generateDockerfile "js" opts).2 = none ∧
    (generateFunctionDockerFileContents javaFunctionDockerfileTemplate "docker-java" tk).2
      = none ∧
    (generateFunctionDockerFileContents pythonFunctionDockerfileTemplate "docker-python" tk).2
      = none ∧
    (generateFunctionDockerFileContents shellFunctionDockerfileTemplate "docker-shell" tk).2
      = none ∧
    (generateFunctionDockerFileContents nodeFunctionDockerfileTemplate "docker-node" tk).2
      = none :=
  ⟨rfl, rfl, rfl, rfl, rfl, rfl, rfl, rfl, rfl⟩

end RiffCLI
